import Mathlib

/-!
Shallow embedding of the News API agent repository.

Sources embedded:
- src/unnamed/part_003 (src/services/MyFunctions.ts, class NewsService):
  normalizeArticles, extractKeywords, getTopHeadlines, searchNews,
  getCompanyNews, sendNewsBrief, getIndustryPulse, compareCompanyCoverage,
  getMarketMovingEvents.
- src/src/services/ChatService.ts (class ChatService): processMessage.
- src/unnamed/part_002 (src/index.ts): the express route handlers.

Modelling conventions:
- A TypeScript value of type string that may also be null, undefined or
  missing is modelled as Option String; the JavaScript truthiness test and
  the || operator treat null, undefined and the empty string as falsy, which
  jsStrOr / jsStrFalsy reproduce.
- A numeric option (pageSize, days) is modelled as Option Int; JavaScript
  x || d yields d exactly when x is undefined or 0 for these integer inputs.
- An outbound HTTP call is split into a request value (what is sent) and an
  Option-typed upstream response: some r is a 2xx response whose payload
  parses to the typed shape, none is any failure the try/catch observes
  (network error, thrown non-2xx, payload whose articles field breaks
  normalization). The date string computed by getDateDaysAgo(windowDays)
  is represented by the lookbackDays field carrying windowDays itself.
- Every embedded operation is a total Lean function: the catch branch of the
  source is the none branch here, so no exception escapes by construction.
-/

/-- JavaScript `x || d` on an optional string: null, undefined and the empty
string are falsy. -/
def jsStrOr (x : Option String) (d : String) : String :=
  match x with
  | none => d
  | some s => if s = "" then d else s

/-- JavaScript truthiness test `!x` on an optional string. -/
def jsStrFalsy (x : Option String) : Bool :=
  match x with
  | none => true
  | some s => s = ""

/-- JavaScript `if (x) params.f = x` on an optional string: the parameter is
omitted when the value is falsy. -/
def jsOptStr (x : Option String) : Option String :=
  match x with
  | none => none
  | some s => if s = "" then none else some s

/-- JavaScript `x || d` on an optional integer: undefined and 0 are falsy. -/
def jsIntOr (x : Option Int) (d : Int) : Int :=
  match x with
  | none => d
  | some v => if v = 0 then d else v

/-- Raw article shape of the News API payload (interface NewsArticle).
Fields typed `string | null` in the source, and fields the normalizer
defends with ||, are Option String here; sourceName models
`article.source?.name`. -/
structure NewsArticle where
  sourceName : Option String
  author : Option String
  title : Option String
  description : Option String
  url : Option String
  publishedAt : Option String
  content : Option String
deriving DecidableEq

/-- Normalized article (interface NormalizedArticle): every field a String. -/
structure NormalizedArticle where
  title : String
  description : String
  url : String
  source : String
  publishedAt : String
  author : String
  content : String
deriving DecidableEq

/-- One article of NewsService.normalizeArticles (part_003 lines 44-54). -/
def normalizeArticle (a : NewsArticle) : NormalizedArticle :=
  { title := jsStrOr a.title ""
    description := jsStrOr a.description ""
    url := jsStrOr a.url ""
    source := jsStrOr a.sourceName "unknown"
    publishedAt := jsStrOr a.publishedAt ""
    author := jsStrOr a.author "Unknown"
    content := jsStrOr a.content (jsStrOr a.description "") }

/-- NewsService.normalizeArticles. -/
def normalizeArticles (articles : List NewsArticle) : List NormalizedArticle :=
  articles.map normalizeArticle

/-- Typed upstream payload (interface NewsApiResponse). -/
structure NewsApiResponse where
  status : String
  totalResults : Int
  articles : List NewsArticle
deriving DecidableEq

/-- Result shape shared by the three query wrappers. -/
structure NewsResult where
  articles : List NormalizedArticle
  totalResults : Int
deriving DecidableEq

/-- Shape of an outbound News API GET request. Fields a given call leaves
unset are none; lookbackDays carries the windowDays value whose
getDateDaysAgo image is sent as the from parameter. -/
structure NewsRequest where
  endpoint : String
  q : Option String := none
  country : Option String := none
  category : Option String := none
  sortBy : Option String := none
  language : Option String := none
  pageSize : Int
  lookbackDays : Option Int := none
  dateFrom : Option String := none
  dateTo : Option String := none
deriving DecidableEq

/-- Request built by getTopHeadlines (part_003 lines 99-105). -/
def getTopHeadlinesRequest (country category : Option String)
    (pageSize : Option Int) : NewsRequest :=
  { endpoint := "top-headlines"
    country := some (jsStrOr country "us")
    category := jsOptStr category
    pageSize := min (jsIntOr pageSize 20) 100 }

/-- NewsService.getTopHeadlines, with the upstream outcome explicit
(part_003 lines 97-114). -/
def getTopHeadlines (_country _category : Option String) (_pageSize : Option Int)
    (upstream : Option NewsApiResponse) : NewsResult :=
  match upstream with
  | some r => { articles := normalizeArticles r.articles, totalResults := r.totalResults }
  | none => { articles := [], totalResults := 0 }

/-- Request built by searchNews; none when the guard `if (!args.query)`
returns early and no request is issued (part_003 lines 138-148). -/
def searchNewsRequest (query sortBy language : Option String)
    (pageSize : Option Int) : Option NewsRequest :=
  if jsStrFalsy query then none
  else some
    { endpoint := "everything"
      q := query
      sortBy := some (jsStrOr sortBy "relevancy")
      language := some (jsStrOr language "en")
      pageSize := min (jsIntOr pageSize 20) 100 }

/-- NewsService.searchNews (part_003 lines 138-157). -/
def searchNews (query _sortBy _language : Option String) (_pageSize : Option Int)
    (upstream : Option NewsApiResponse) : NewsResult :=
  if jsStrFalsy query then { articles := [], totalResults := 0 }
  else
    match upstream with
    | some r => { articles := normalizeArticles r.articles, totalResults := r.totalResults }
    | none => { articles := [], totalResults := 0 }

/-- Request built by getCompanyNews; none when the guard
`if (!args.companyName)` returns early (part_003 lines 181-192). -/
def getCompanyNewsRequest (companyName dateFrom dateTo : Option String)
    (pageSize : Option Int) : Option NewsRequest :=
  if jsStrFalsy companyName then none
  else some
    { endpoint := "everything"
      q := companyName
      sortBy := some "publishedAt"
      language := some "en"
      pageSize := min (jsIntOr pageSize 10) 100
      dateFrom := jsOptStr dateFrom
      dateTo := jsOptStr dateTo }

/-- NewsService.getCompanyNews (part_003 lines 181-202). -/
def getCompanyNews (companyName _dateFrom _dateTo : Option String)
    (_pageSize : Option Int) (upstream : Option NewsApiResponse) : NewsResult :=
  if jsStrFalsy companyName then { articles := [], totalResults := 0 }
  else
    match upstream with
    | some r => { articles := normalizeArticles r.articles, totalResults := r.totalResults }
    | none => { articles := [], totalResults := 0 }

/-- ASCII fragment of String.prototype.toLowerCase on one character. Non
ASCII letters are unchanged; the following cleaning pass turns every
character outside a-z, 0-9 and whitespace into a space, so the token lists
produced agree with the JavaScript pipeline. -/
def jsToLowerChar (c : Char) : Char :=
  if 'A' <= c && c <= 'Z' then Char.ofNat (c.toNat + 32) else c

/-- Whitespace recognised when splitting. The regex class backslash-s also
holds rarer characters; those are outside a-z0-9 as well, so the cleaning
pass below already maps them to a space and the resulting tokens agree. -/
def isSpaceChar (c : Char) : Bool :=
  c = ' ' || c = '\t' || c = '\n' || c = '\r'

/-- One character of the replace pass over regex [^a-z0-9 whitespace],
replacement a space (part_003 line 71). -/
def keepAlnumOrSpace (c : Char) : Char :=
  if ('a' <= c && c <= 'z') || ('0' <= c && c <= '9') || isSpaceChar c then c
  else ' '

/-- Splits a character list into maximal runs of non-whitespace characters,
the effect of String.prototype.split on one-or-more whitespace once empty
tokens are discarded (the later length filter discards them in the source). -/
def splitTokensAux : List Char → List Char → List (List Char)
  | [], cur => if cur.isEmpty then [] else [cur.reverse]
  | c :: cs, cur =>
    if isSpaceChar c then
      if cur.isEmpty then splitTokensAux cs []
      else cur.reverse :: splitTokensAux cs []
    else splitTokensAux cs (c :: cur)

/-- Stop-word list of NewsService.extractKeywords (part_003 lines 63-68). -/
def stopWords : List String :=
  ["the", "a", "an", "and", "or", "for", "with", "from", "this", "that",
   "into", "about", "after", "before", "over", "under", "their", "they",
   "them", "you", "your", "will", "said", "says", "new", "more", "has",
   "have", "was", "were", "are", "is", "at", "to", "in", "on", "of", "as",
   "by", "be", "it", "its"]

/-- NewsService.extractKeywords (part_003 lines 62-74): lower-case, replace
every character outside a-z0-9-whitespace by a space, split on whitespace,
keep tokens longer than 3 characters that are not stop-words. -/
def extractKeywords (text : String) : List String :=
  ((splitTokensAux ((text.toList.map jsToLowerChar).map keepAlnumOrSpace) []).map
      (fun cs => String.mk cs)).filter
    (fun w => decide (3 < w.length) && !(stopWords.contains w))

/-- Clamped lookback window of getIndustryPulse and compareCompanyCoverage
(part_003 lines 250 and 317): Math.min(Math.max(days || 7, 1), 14). -/
def pulseWindow (days : Option Int) : Int :=
  min (max (jsIntOr days 7) 1) 14

/-- Clamped lookback window of getMarketMovingEvents (part_003 line 361):
Math.min(Math.max(days || 3, 1), 7). -/
def moversWindow (days : Option Int) : Int :=
  min (max (jsIntOr days 3) 1) 7

/-- Headline projection used by the insight endpoints. -/
structure Headline where
  title : String
  source : String
  publishedAt : String
  url : String
deriving DecidableEq

/-- Projects a normalized article to its headline fields. -/
def toHeadline (a : NormalizedArticle) : Headline :=
  { title := a.title, source := a.source, publishedAt := a.publishedAt, url := a.url }

/-- Counting map update: a JavaScript Map keeps insertion order, updating an
existing key in place and appending a fresh key at the end. -/
def bumpCount : List (String × Nat) → String → List (String × Nat)
  | [], k => [(k, 1)]
  | (a, n) :: rest, k =>
    if a = k then (a, n + 1) :: rest else (a, n) :: bumpCount rest k

/-- Inserts an entry into a list sorted by descending count, after every
entry of greater-or-equal count, matching the stable JavaScript sort with
comparator (a, b) =:= b[1] - a[1]. -/
def insertByCountDesc (x : String × Nat) : List (String × Nat) → List (String × Nat)
  | [] => [x]
  | y :: rest => if y.2 < x.2 then x :: y :: rest else y :: insertByCountDesc x rest

/-- Stable sort by descending count. -/
def sortByCountDesc (l : List (String × Nat)) : List (String × Nat) :=
  l.foldr insertByCountDesc []

/-- Result shape of getIndustryPulse. -/
structure PulseResult where
  industry : String
  windowDays : Int
  totalResults : Int
  topSources : List (String × Nat)
  topKeywords : List (String × Nat)
  notableHeadlines : List Headline
deriving DecidableEq

/-- NewsService.getIndustryPulse (part_003 lines 248-281). The some branch
is the successful upstream call, the none branch the catch clause. -/
def getIndustryPulse (industry : String) (days : Option Int)
    (_language : Option String) (upstream : Option NewsApiResponse) : PulseResult :=
  match upstream with
  | some resp =>
    let windowDays := pulseWindow days
    let articles := normalizeArticles resp.articles
    let sourceCount := articles.foldl (fun m a => bumpCount m a.source) []
    let keywordCount := articles.foldl
      (fun m a => (extractKeywords a.title).foldl bumpCount m) []
    { industry := industry
      windowDays := windowDays
      totalResults := resp.totalResults
      topSources := (sortByCountDesc sourceCount).take 3
      topKeywords := (sortByCountDesc keywordCount).take 5
      notableHeadlines := (articles.take 5).map toHeadline }
  | none =>
    { industry := industry
      windowDays := jsIntOr days 7
      totalResults := 0
      topSources := []
      topKeywords := []
      notableHeadlines := [] }

/-- Request built by getIndustryPulse (part_003 lines 251-260). -/
def industryPulseRequest (industry : String) (days : Option Int)
    (language : Option String) : NewsRequest :=
  { endpoint := "everything"
    q := some industry
    lookbackDays := some (pulseWindow days)
    sortBy := some "publishedAt"
    language := some (jsStrOr language "en")
    pageSize := 15 }

/-- One side of the company comparison result. -/
structure CompanySide where
  name : String
  totalResults : Int
  recentHeadlines : List Headline
deriving DecidableEq

/-- Result shape of compareCompanyCoverage. -/
structure CompareResult where
  windowDays : Int
  companyA : CompanySide
  companyB : CompanySide
  deltaCoverage : Int
deriving DecidableEq

/-- Requests built by compareCompanyCoverage, one per company, issued in
parallel over the same window (part_003 lines 317-326). -/
def compareRequests (companyA companyB : String) (days : Option Int) :
    NewsRequest × NewsRequest :=
  let mk := fun (q : String) =>
    { endpoint := "everything"
      q := some q
      lookbackDays := some (pulseWindow days)
      sortBy := some "publishedAt"
      language := some "en"
      pageSize := 10 : NewsRequest }
  (mk companyA, mk companyB)

/-- NewsService.compareCompanyCoverage (part_003 lines 315-339). The some
branch carries both upstream payloads; none is the catch clause, reached
when either parallel call fails. -/
def compareCompanyCoverage (companyA companyB : String) (days : Option Int)
    (upstream : Option (NewsApiResponse × NewsApiResponse)) : CompareResult :=
  match upstream with
  | some (aRes, bRes) =>
    let aArticles := normalizeArticles aRes.articles
    let bArticles := normalizeArticles bRes.articles
    { windowDays := pulseWindow days
      companyA :=
        { name := companyA
          totalResults := aRes.totalResults
          recentHeadlines := (aArticles.take 3).map toHeadline }
      companyB :=
        { name := companyB
          totalResults := bRes.totalResults
          recentHeadlines := (bArticles.take 3).map toHeadline }
      deltaCoverage := aRes.totalResults - bRes.totalResults }
  | none =>
    { windowDays := jsIntOr days 7
      companyA := { name := companyA, totalResults := 0, recentHeadlines := [] }
      companyB := { name := companyB, totalResults := 0, recentHeadlines := [] }
      deltaCoverage := 0 }

/-- Market-moving event: a headline tagged with the constant trigger. -/
structure MarketEvent where
  title : String
  source : String
  publishedAt : String
  url : String
  trigger : String
deriving DecidableEq

/-- Result shape of getMarketMovingEvents. -/
structure MoversResult where
  windowDays : Int
  totalScanned : Int
  events : List MarketEvent
deriving DecidableEq

/-- Request built by getMarketMovingEvents (part_003 lines 361-365). -/
def marketMoversRequest (query : Option String) (days : Option Int) : NewsRequest :=
  { endpoint := "everything"
    q := some (jsStrOr query "earnings OR merger OR layoffs")
    lookbackDays := some (moversWindow days)
    sortBy := some "publishedAt"
    language := some "en"
    pageSize := 15 }

/-- NewsService.getMarketMovingEvents (part_003 lines 359-379). -/
def getMarketMovingEvents (_query : Option String) (days : Option Int)
    (upstream : Option NewsApiResponse) : MoversResult :=
  match upstream with
  | some resp =>
    let articles := normalizeArticles resp.articles
    { windowDays := moversWindow days
      totalScanned := resp.totalResults
      events := (articles.take 6).map (fun a =>
        { title := a.title, source := a.source, publishedAt := a.publishedAt
          url := a.url, trigger := "event" }) }
  | none =>
    { windowDays := jsIntOr days 3, totalScanned := 0, events := [] }

/-- Brief priority (enum low, medium, high). -/
inductive Priority where
  | low
  | medium
  | high
deriving DecidableEq

/-- Stored brief (NewsService.recentBriefs entry). -/
structure Brief where
  summary : String
  priority : Priority
  timestamp : String
deriving DecidableEq

/-- NewsService.sendNewsBrief (part_003 lines 216-225): unshift the new
brief, pop the last entry when the list exceeds 10. The priority default
mirrors args.priority || medium; the enum values are all truthy. -/
def sendNewsBrief (briefs : List Brief) (summary : String)
    (priority : Option Priority) (ts : String) : List Brief × (Bool × String) :=
  let l := { summary := summary, priority := priority.getD Priority.medium,
             timestamp := ts : Brief } :: briefs
  (if 10 < l.length then l.dropLast else l, (true, ts))

/-- Message role (interface Message in ChatService.ts). -/
inductive Role where
  | user
  | assistant
deriving DecidableEq

/-- Stored chat message. -/
structure Message where
  role : Role
  content : String
  timestamp : String
deriving DecidableEq

/-- Fallback reply returned by the catch clause of processMessage
(ChatService.ts line 73). -/
def fallbackReply : String :=
  "sorry, i\x27m having trouble connecting to my brain right now. please try again later."

/-- ChatService.processMessage for one user (ChatService.ts lines 37-75),
acting on that user conversation entry of the per-user map. The upstream
argument is the hosted-agent call: some reply is a successful response
carrying the extracted assistant text (the source extraction always yields
a string on success), none is any failure the catch clause observes.
Returns the updated stored message list and the string handed back to the
route. -/
def processMessage (msgs : List Message) (userMessage : String)
    (ts1 ts2 : String) (upstream : Option String) : List Message × String :=
  let msgs1 := msgs ++ [{ role := Role.user, content := userMessage, timestamp := ts1 }]
  match upstream with
  | some reply =>
    let msgs2 := msgs1 ++ [{ role := Role.assistant, content := reply, timestamp := ts2 }]
    let msgs3 := if 20 < msgs2.length then msgs2.drop (msgs2.length - 20) else msgs2
    (msgs3, reply)
  | none => (msgs1, fallbackReply)

/-- HTTP route outcome: ok is res.json(body) with status 200, clientError is
res.status(400).json with an error body. -/
inductive RouteResponse (α : Type) where
  | ok (body : α)
  | clientError (msg : String)
deriving DecidableEq

/-- Status code of a route outcome. -/
def RouteResponse.status : RouteResponse α → Nat
  | .ok _ => 200
  | .clientError _ => 400

/-- GET /api/search handler (part_002 lines 40-44): no parameter check, the
query parameter is forwarded as-is. -/
def searchRoute (q : Option String) (upstream : Option NewsApiResponse) :
    RouteResponse NewsResult :=
  RouteResponse.ok (searchNews q none none none upstream)

/-- GET /api/company handler (part_002 lines 46-50): no parameter check. -/
def companyRoute (name : Option String) (upstream : Option NewsApiResponse) :
    RouteResponse NewsResult :=
  RouteResponse.ok (getCompanyNews name none none none upstream)

/-- GET /api/insights/industry-pulse handler (part_002 lines 56-67): a
missing or empty industry parameter is rejected with 400. -/
def industryPulseRoute (industry : Option String) (days : Option Int)
    (language : Option String) (upstream : Option NewsApiResponse) :
    RouteResponse PulseResult :=
  if jsStrFalsy industry then RouteResponse.clientError "industry is required"
  else RouteResponse.ok (getIndustryPulse (industry.getD "") days language upstream)

/-- GET /api/insights/compare-companies handler (part_002 lines 69-80): a
missing or empty companyA or companyB is rejected with 400. -/
def compareRoute (companyA companyB : Option String) (days : Option Int)
    (upstream : Option (NewsApiResponse × NewsApiResponse)) :
    RouteResponse CompareResult :=
  if jsStrFalsy companyA || jsStrFalsy companyB then
    RouteResponse.clientError "companyA and companyB are required"
  else
    RouteResponse.ok
      (compareCompanyCoverage (companyA.getD "") (companyB.getD "") days upstream)

/-! Theorems. Helper lemmas come first; each claim is settled by one named
theorem, with a counterexample theorem where the claim as stated fails. -/

/-- Clamping with Math.min and Math.max lands in the closed interval. -/
theorem clamp_mem (x lo hi : Int) (h : lo ≤ hi) :
    lo ≤ min (max x lo) hi ∧ min (max x lo) hi ≤ hi :=
  ⟨le_min (le_max_right x lo) h, min_le_right _ _⟩

/-- C5: whenever the outbound News API call fails (the none upstream
outcome, covering network errors, thrown non-2xx responses and payloads
that break normalization), getTopHeadlines, searchNews and getCompanyNews
return the empty result with zero total. Each embedded wrapper is a total
function, so no exception reaches the caller. -/
theorem C5_error_default (country category sortBy language query companyName
    dateFrom dateTo : Option String) (pageSize : Option Int) :
    getTopHeadlines country category pageSize none =
      { articles := [], totalResults := 0 } ∧
    searchNews query sortBy language pageSize none =
      { articles := [], totalResults := 0 } ∧
    getCompanyNews companyName dateFrom dateTo pageSize none =
      { articles := [], totalResults := 0 } := by
  refine ⟨rfl, ?_, ?_⟩
  · unfold searchNews
    split <;> rfl
  · unfold getCompanyNews
    split <;> rfl

/-- C10: a missing or empty query (searchNews) or companyName
(getCompanyNews) short-circuits to the empty result, no request is built,
and the corresponding routes answer 200 with the empty result. -/
theorem C10_empty_query_no_request (sortBy language dateFrom dateTo : Option String)
    (pageSize : Option Int) (upstream : Option NewsApiResponse) :
    searchNews none sortBy language pageSize upstream =
      { articles := [], totalResults := 0 } ∧
    searchNews (some "") sortBy language pageSize upstream =
      { articles := [], totalResults := 0 } ∧
    searchNewsRequest none sortBy language pageSize = none ∧
    searchNewsRequest (some "") sortBy language pageSize = none ∧
    getCompanyNews none dateFrom dateTo pageSize upstream =
      { articles := [], totalResults := 0 } ∧
    getCompanyNews (some "") dateFrom dateTo pageSize upstream =
      { articles := [], totalResults := 0 } ∧
    getCompanyNewsRequest none dateFrom dateTo pageSize = none ∧
    getCompanyNewsRequest (some "") dateFrom dateTo pageSize = none ∧
    searchRoute none upstream = RouteResponse.ok { articles := [], totalResults := 0 } ∧
    (searchRoute none upstream).status = 200 ∧
    searchRoute (some "") upstream = RouteResponse.ok { articles := [], totalResults := 0 } ∧
    companyRoute none upstream = RouteResponse.ok { articles := [], totalResults := 0 } ∧
    (companyRoute none upstream).status = 200 ∧
    companyRoute (some "") upstream = RouteResponse.ok { articles := [], totalResults := 0 } := by
  simp [searchNews, getCompanyNews, searchNewsRequest, getCompanyNewsRequest,
    searchRoute, companyRoute, jsStrFalsy, RouteResponse.status]

/-- C4 counterexample: a GET on /api/search with the q parameter missing is
answered with status 200 (the empty result), not 400; likewise /api/company
with name missing. This refutes the claim that every route rejects a
missing required parameter with 400. -/
theorem C4_missing_param_counterexample :
    (searchRoute none none).status = 200 ∧
    (searchRoute none none).status ≠ 400 ∧
    (companyRoute none none).status = 200 ∧
    (companyRoute none none).status ≠ 400 := by
  refine ⟨rfl, by decide, rfl, by decide⟩

/-- C4 amended: only /api/insights/industry-pulse (missing or empty
industry) and /api/insights/compare-companies (missing or empty companyA or
companyB) respond 400 with an error body; /api/search with q missing and
/api/company with name missing respond 200 with the empty result. -/
theorem C4_param_validation_amended (x : Option String) (days : Option Int)
    (language : Option String) (u : Option NewsApiResponse)
    (uc : Option (NewsApiResponse × NewsApiResponse)) :
    (searchRoute none u).status = 200 ∧
    searchRoute none u = RouteResponse.ok { articles := [], totalResults := 0 } ∧
    (searchRoute (some "") u).status = 200 ∧
    (companyRoute none u).status = 200 ∧
    companyRoute none u = RouteResponse.ok { articles := [], totalResults := 0 } ∧
    (companyRoute (some "") u).status = 200 ∧
    (industryPulseRoute none days language u).status = 400 ∧
    (industryPulseRoute (some "") days language u).status = 400 ∧
    industryPulseRoute none days language u =
      RouteResponse.clientError "industry is required" ∧
    (compareRoute none x days uc).status = 400 ∧
    (compareRoute x none days uc).status = 400 ∧
    (compareRoute (some "") x days uc).status = 400 ∧
    (compareRoute x (some "") days uc).status = 400 ∧
    compareRoute none x days uc =
      RouteResponse.clientError "companyA and companyB are required" := by
  simp [searchRoute, companyRoute, industryPulseRoute, compareRoute,
    searchNews, getCompanyNews, jsStrFalsy, RouteResponse.status]

/-- C3 counterexample: with days equal to 100 and a failing upstream call,
getIndustryPulse returns windowDays 100 while days equal to 14 returns 14,
so the two requests do not behave identically on every path and the
returned window is not always inside the interval from 1 to 14; the
market-movers catch branch likewise returns 100, outside 1 to 7. -/
theorem C3_window_clamp_counterexample :
    (getIndustryPulse "fintech" (some 100) none none).windowDays = 100 ∧
    (getIndustryPulse "fintech" (some 14) none none).windowDays = 14 ∧
    (getMarketMovingEvents none (some 100) none).windowDays = 100 := by
  refine ⟨rfl, rfl, rfl⟩

/-- C3 amended: the outbound request window is clamped to the interval from
1 to 14 days (industry pulse) and 1 to 7 days (market movers), and the
success path returns that clamped window, so two requests with days 100 and
days 14 build the same outbound request and the same successful result; but
the catch branch returns the raw requested days (defaulted to 7 and 3),
unclamped, so the returned windowDays differs on the failure path. -/
theorem C3_window_clamp_amended (industry : String) (days : Option Int)
    (language q : Option String) (resp : NewsApiResponse) :
    1 ≤ pulseWindow days ∧ pulseWindow days ≤ 14 ∧
    (industryPulseRequest industry days language).lookbackDays =
      some (pulseWindow days) ∧
    (getIndustryPulse industry days language (some resp)).windowDays =
      pulseWindow days ∧
    (getIndustryPulse industry days language none).windowDays = jsIntOr days 7 ∧
    1 ≤ moversWindow days ∧ moversWindow days ≤ 7 ∧
    (marketMoversRequest q days).lookbackDays = some (moversWindow days) ∧
    (getMarketMovingEvents q days (some resp)).windowDays = moversWindow days ∧
    (getMarketMovingEvents q days none).windowDays = jsIntOr days 3 ∧
    industryPulseRequest industry (some 100) language =
      industryPulseRequest industry (some 14) language ∧
    getIndustryPulse industry (some 100) language (some resp) =
      getIndustryPulse industry (some 14) language (some resp) ∧
    marketMoversRequest q (some 100) = marketMoversRequest q (some 7) ∧
    getMarketMovingEvents q (some 100) (some resp) =
      getMarketMovingEvents q (some 7) (some resp) := by
  have hp : pulseWindow (some 100) = pulseWindow (some 14) := by decide
  have hm : moversWindow (some 100) = moversWindow (some 7) := by decide
  refine ⟨(clamp_mem (jsIntOr days 7) 1 14 (by norm_num)).1,
    (clamp_mem (jsIntOr days 7) 1 14 (by norm_num)).2, rfl, rfl, rfl,
    (clamp_mem (jsIntOr days 3) 1 7 (by norm_num)).1,
    (clamp_mem (jsIntOr days 3) 1 7 (by norm_num)).2, rfl, rfl, rfl,
    ?_, ?_, ?_, ?_⟩
  · simp [industryPulseRequest, hp]
  · simp [getIndustryPulse, hp]
  · simp [marketMoversRequest, hm]
  · simp [getMarketMovingEvents, hm]

/-- C2 counterexample: an upstream article whose content field is absent but
whose description is non-empty is normalized with content equal to the
description, not the empty string, refuting the claim that an absent
content field always becomes the empty string. -/
theorem C2_content_default_counterexample :
    ¬ (∀ a : NewsArticle, a.content = none → (normalizeArticle a).content = "") :=
  fun h => absurd
    (h ⟨some "Reuters", none, some "Chips", some "chip shortage deepens",
        some "u", some "2024-01-01", none⟩ rfl)
    (by decide)

/-- C2 amended: normalization substitutes the string Unknown for an absent
author and the empty string for an absent description; an absent content
field falls back to the normalized description, hence to the empty string
only when the description is also absent. All output fields are strings by
the type of NormalizedArticle. -/
theorem C2_normalize_defaults (a : NewsArticle) :
    (a.author = none → (normalizeArticle a).author = "Unknown") ∧
    (a.description = none → (normalizeArticle a).description = "") ∧
    (a.content = none → (normalizeArticle a).content = (normalizeArticle a).description) ∧
    (a.content = none → a.description = none → (normalizeArticle a).content = "") := by
  refine ⟨fun h => ?_, fun h => ?_, fun h => ?_, fun h h2 => ?_⟩
  · simp [normalizeArticle, jsStrOr, h]
  · simp [normalizeArticle, jsStrOr, h]
  · simp [normalizeArticle, jsStrOr, h]
  · simp [normalizeArticle, jsStrOr, h, h2]

/-- C2 witness: evaluating the amended claim on an article missing author,
description and content. -/
theorem C2_normalize_defaults_witness :
    (normalizeArticle ⟨some "AP", none, some "T", none, some "u", some "p", none⟩).author = "Unknown" ∧
    (normalizeArticle ⟨some "AP", none, some "T", none, some "u", some "p", none⟩).description = "" ∧
    (normalizeArticle ⟨some "AP", none, some "T", none, some "u", some "p", none⟩).content = "" :=
  ⟨(C2_normalize_defaults _).1 rfl, (C2_normalize_defaults _).2.1 rfl,
   (C2_normalize_defaults _).2.2.2 rfl rfl⟩


/-- Truncation step of processMessage written uniformly: keeping the most
recent 20 messages equals dropping all but the last 20. -/
theorem trunc20_eq (l : List Message) :
    (if 20 < l.length then l.drop (l.length - 20) else l) = l.drop (l.length - 20) := by
  split
  · rfl
  · rename_i h
    rw [Nat.sub_eq_zero_of_le (by omega), List.drop_zero]

/-- The truncation step of processMessage leaves at most 20 messages. -/
theorem trunc20_len (l : List Message) :
    (if 20 < l.length then l.drop (l.length - 20) else l).length ≤ 20 := by
  split
  · rw [List.length_drop]
    omega
  · rename_i h
    omega

/-- C1 counterexample: starting from an empty conversation, 21 calls to
processMessage whose upstream call fails leave 21 stored messages, so the
stored history exceeds 20; and a single failing call stores only the user
message, so the substituted fallback reply is never appended (the catch
branch returns it without storing it and performs no truncation). -/
theorem C1_history_bound_counterexample :
    20 < ((List.range 21).foldl
      (fun s _ => (processMessage s "hi" "t1" "t2" none).1) []).length ∧
    (processMessage [] "hi" "t1" "t2" none).1 =
      [(⟨Role.user, "hi", "t1"⟩ : Message)] ∧
    (processMessage [] "hi" "t1" "t2" none).2 = fallbackReply := by
  refine ⟨by decide, rfl, rfl⟩

/-- C1 amended: on a successful upstream call, processMessage appends the
timestamped user message and the assistant reply and truncates the stored
history to its most recent 20 messages, dropping the oldest entries first,
so a successful call always leaves at most 20 stored messages; on upstream
failure it appends only the user message, returns the fallback reply
without storing it, and does not truncate, so the 20-message bound holds
only across successful calls. -/
theorem C1_processMessage_amended (msgs : List Message) (u ts1 ts2 reply : String) :
    (processMessage msgs u ts1 ts2 none).1 =
      msgs ++ [(⟨Role.user, u, ts1⟩ : Message)] ∧
    (processMessage msgs u ts1 ts2 none).2 = fallbackReply ∧
    (processMessage msgs u ts1 ts2 (some reply)).1 =
      (msgs ++ [(⟨Role.user, u, ts1⟩ : Message), ⟨Role.assistant, reply, ts2⟩]).drop
        ((msgs.length + 2) - 20) ∧
    (processMessage msgs u ts1 ts2 (some reply)).1.length ≤ 20 ∧
    (processMessage msgs u ts1 ts2 (some reply)).2 = reply := by
  refine ⟨rfl, rfl, ?_, ?_, rfl⟩
  · simp only [processMessage, trunc20_eq, List.append_assoc, List.singleton_append]
    congr 1
    simp
  · exact trunc20_len _

/-- C6: the pageSize sent upstream is clamped to at most 100 by every query
wrapper, and when no pageSize is supplied the defaults are 20 for
getTopHeadlines, 20 for searchNews and 10 for getCompanyNews. -/
theorem C6_pageSize_clamp (country category sortBy language q name dfrom
    dto : Option String) (ps : Option Int) (reqS reqC : NewsRequest) :
    (getTopHeadlinesRequest country category ps).pageSize ≤ 100 ∧
    (getTopHeadlinesRequest country category none).pageSize = 20 ∧
    (searchNewsRequest q sortBy language ps = some reqS → reqS.pageSize ≤ 100) ∧
    (searchNewsRequest q sortBy language none = some reqS → reqS.pageSize = 20) ∧
    (getCompanyNewsRequest name dfrom dto ps = some reqC → reqC.pageSize ≤ 100) ∧
    (getCompanyNewsRequest name dfrom dto none = some reqC → reqC.pageSize = 10) := by
  refine ⟨min_le_right _ _, by simp [getTopHeadlinesRequest, jsIntOr, min_def], ?_, ?_, ?_, ?_⟩
  all_goals
    intro h
    simp only [searchNewsRequest, getCompanyNewsRequest] at h
    split at h
    · exact Option.noConfusion h
    · injection h with h
      subst h
      first
        | exact min_le_right _ _
        | simp [jsIntOr, min_def]

/-- C6 witness: the clamp and defaults evaluated at concrete requests (a
requested pageSize of 500, and absent pageSize for the company search). -/
theorem C6_pageSize_clamp_witness :
    (getTopHeadlinesRequest none none (some 500)).pageSize ≤ 100 ∧
    ({ endpoint := "everything", q := some "ai", sortBy := some "relevancy",
       language := some "en", pageSize := 100 } : NewsRequest).pageSize ≤ 100 ∧
    ({ endpoint := "everything", q := some "Apple", sortBy := some "publishedAt",
       language := some "en", pageSize := 10 } : NewsRequest).pageSize = 10 :=
  ⟨(C6_pageSize_clamp none none none none (some "ai") (some "Apple") none none
      (some 500)
      { endpoint := "everything", q := some "ai", sortBy := some "relevancy",
        language := some "en", pageSize := 100 }
      { endpoint := "everything", q := some "Apple", sortBy := some "publishedAt",
        language := some "en", pageSize := 10 }).1,
   (C6_pageSize_clamp none none none none (some "ai") (some "Apple") none none
      (some 500)
      { endpoint := "everything", q := some "ai", sortBy := some "relevancy",
        language := some "en", pageSize := 100 }
      { endpoint := "everything", q := some "Apple", sortBy := some "publishedAt",
        language := some "en", pageSize := 10 }).2.2.1 (by decide),
   (C6_pageSize_clamp none none none none (some "ai") (some "Apple") none none
      (some 500)
      { endpoint := "everything", q := some "ai", sortBy := some "relevancy",
        language := some "en", pageSize := 100 }
      { endpoint := "everything", q := some "Apple", sortBy := some "publishedAt",
        language := some "en", pageSize := 10 }).2.2.2.2.2 (by decide)⟩

/-- C7: every token returned by extractKeywords has length strictly greater
than 3 and is not in the stop-word set, and the extraction is
case-insensitive: two inputs with the same character-wise lower-casing
yield the same keywords. -/
theorem C7_extractKeywords_filter :
    (∀ (t w : String), w ∈ extractKeywords t →
      3 < w.length ∧ stopWords.contains w = false) ∧
    (∀ (s t : String),
      s.toList.map jsToLowerChar = t.toList.map jsToLowerChar →
      extractKeywords s = extractKeywords t) := by
  constructor
  · intro t w hw
    unfold extractKeywords at hw
    obtain ⟨-, hp⟩ := List.mem_filter.mp hw
    rw [Bool.and_eq_true] at hp
    obtain ⟨h1, h2⟩ := hp
    refine ⟨of_decide_eq_true h1, ?_⟩
    rwa [Bool.not_eq_eq_eq_not, Bool.not_true] at h2
  · intro s t h
    unfold extractKeywords
    rw [h]

/-- C7 witness: the extraction evaluated on a concrete title and its
upper-cased variant. -/
theorem C7_extractKeywords_filter_witness :
    (3 < ("fintech" : String).length ∧ stopWords.contains "fintech" = false) ∧
    extractKeywords "The Fintech Boom" = extractKeywords "the FINTECH boom" :=
  ⟨C7_extractKeywords_filter.1 "The Fintech Boom" "fintech" (by decide),
   C7_extractKeywords_filter.2 "The Fintech Boom" "the FINTECH boom" (by decide)⟩

/-- C8: on a successful pair of searches, compareCompanyCoverage reports
each side's upstream total, keeps at most 3 recent headlines per company,
and deltaCoverage is the signed difference of the totals; two empty result
sets therefore yield deltaCoverage 0 with empty headline lists, still on
the ordinary success path. -/
theorem C8_compare_company_coverage (a b : String) (days : Option Int)
    (ra rb : NewsApiResponse) :
    (compareCompanyCoverage a b days (some (ra, rb))).companyA.name = a ∧
    (compareCompanyCoverage a b days (some (ra, rb))).companyB.name = b ∧
    (compareCompanyCoverage a b days (some (ra, rb))).companyA.totalResults =
      ra.totalResults ∧
    (compareCompanyCoverage a b days (some (ra, rb))).companyB.totalResults =
      rb.totalResults ∧
    (compareCompanyCoverage a b days (some (ra, rb))).companyA.recentHeadlines.length ≤ 3 ∧
    (compareCompanyCoverage a b days (some (ra, rb))).companyB.recentHeadlines.length ≤ 3 ∧
    (compareCompanyCoverage a b days (some (ra, rb))).deltaCoverage =
      ra.totalResults - rb.totalResults ∧
    (ra.totalResults = 0 → rb.totalResults = 0 →
      (compareCompanyCoverage a b days (some (ra, rb))).deltaCoverage = 0) ∧
    (ra.articles = [] →
      (compareCompanyCoverage a b days (some (ra, rb))).companyA.recentHeadlines = []) ∧
    (rb.articles = [] →
      (compareCompanyCoverage a b days (some (ra, rb))).companyB.recentHeadlines = []) := by
  refine ⟨rfl, rfl, rfl, rfl, ?_, ?_, rfl, ?_, ?_, ?_⟩
  · simp [compareCompanyCoverage, normalizeArticles]
  · simp [compareCompanyCoverage, normalizeArticles]
  · intro h1 h2
    simp [compareCompanyCoverage, h1, h2]
  · intro h1
    simp [compareCompanyCoverage, normalizeArticles, h1]
  · intro h2
    simp [compareCompanyCoverage, normalizeArticles, h2]

/-- C8 witness: comparing Apple and Microsoft when both searches succeed
with zero results gives deltaCoverage 0 and empty headline lists. -/
theorem C8_compare_company_coverage_witness :
    (compareCompanyCoverage "Apple" "Microsoft" none
      (some (⟨"ok", 0, []⟩, ⟨"ok", 0, []⟩))).deltaCoverage = 0 ∧
    (compareCompanyCoverage "Apple" "Microsoft" none
      (some (⟨"ok", 0, []⟩, ⟨"ok", 0, []⟩))).companyA.recentHeadlines = [] ∧
    (compareCompanyCoverage "Apple" "Microsoft" none
      (some (⟨"ok", 0, []⟩, ⟨"ok", 0, []⟩))).companyB.recentHeadlines = [] :=
  ⟨(C8_compare_company_coverage "Apple" "Microsoft" none ⟨"ok", 0, []⟩
      ⟨"ok", 0, []⟩).2.2.2.2.2.2.2.1 rfl rfl,
   (C8_compare_company_coverage "Apple" "Microsoft" none ⟨"ok", 0, []⟩
      ⟨"ok", 0, []⟩).2.2.2.2.2.2.2.2.1 rfl,
   (C8_compare_company_coverage "Apple" "Microsoft" none ⟨"ok", 0, []⟩
      ⟨"ok", 0, []⟩).2.2.2.2.2.2.2.2.2 rfl⟩

/-- One sendNewsBrief call preserves the 10-entry bound on the stored
brief list. -/
theorem sendNewsBrief_len_le (briefs : List Brief) (s : String)
    (p : Option Priority) (ts : String) (h : briefs.length ≤ 10) :
    (sendNewsBrief briefs s p ts).1.length ≤ 10 := by
  simp only [sendNewsBrief]
  split
  · rename_i hlt
    rw [List.length_dropLast, List.length_cons]
    omega
  · rename_i hlt
    rw [List.length_cons] at hlt ⊢
    omega

/-- Any foldl of sendNewsBrief calls over a start state within the bound
stays within the bound. -/
theorem sendNewsBrief_fold_le (calls : List (String × Option Priority × String)) :
    ∀ st : List Brief, st.length ≤ 10 →
      (calls.foldl (fun acc c => (sendNewsBrief acc c.1 c.2.1 c.2.2).1) st).length ≤ 10 := by
  induction calls with
  | nil =>
    intro st h
    simpa using h
  | cons c rest ih =>
    intro st h
    exact ih _ (sendNewsBrief_len_le st c.1 c.2.1 c.2.2 h)

/-- C9: sendNewsBrief inserts the new brief at the front; when the list
then exceeds 10 entries the oldest entry is removed from the back, so after
any sequence of calls starting from the empty list the stored briefs list
holds at most 10 entries, newest first. -/
theorem C9_briefs_bound :
    (∀ (briefs : List Brief) (s : String) (p : Option Priority) (ts : String),
      briefs.length ≤ 10 → (sendNewsBrief briefs s p ts).1.length ≤ 10) ∧
    (∀ (briefs : List Brief) (s : String) (p : Option Priority) (ts : String),
      (sendNewsBrief briefs s p ts).1.head? =
        some ⟨s, p.getD Priority.medium, ts⟩) ∧
    (∀ (briefs : List Brief) (s : String) (p : Option Priority) (ts : String),
      briefs.length = 10 →
      (sendNewsBrief briefs s p ts).1 =
        (⟨s, p.getD Priority.medium, ts⟩ : Brief) :: briefs.dropLast) ∧
    (∀ calls : List (String × Option Priority × String),
      (calls.foldl (fun acc c => (sendNewsBrief acc c.1 c.2.1 c.2.2).1) []).length ≤ 10) := by
  refine ⟨sendNewsBrief_len_le, ?_, ?_, fun calls => sendNewsBrief_fold_le calls [] (by simp)⟩
  · intro briefs s p ts
    simp only [sendNewsBrief]
    split
    · rename_i hlt
      rw [List.length_cons] at hlt
      match briefs with
      | [] => rw [List.length_nil] at hlt; omega
      | c :: rest => rw [List.dropLast_cons₂, List.head?_cons]
    · rw [List.head?_cons]
  · intro briefs s p ts h10
    simp only [sendNewsBrief]
    split
    · rename_i hlt
      match briefs with
      | [] => simp at h10
      | c :: rest => rw [List.dropLast_cons₂]
    · rename_i hlt
      rw [List.length_cons, h10] at hlt
      omega

/-- C9 witness: one call on an empty list stays within the bound, and a
call on a full list of 10 drops the oldest entry from the back. -/
theorem C9_briefs_bound_witness :
    (sendNewsBrief [] "s" none "t").1.length ≤ 10 ∧
    (sendNewsBrief (List.replicate 10 ⟨"x", Priority.low, "u"⟩) "s" none "t").1 =
      (⟨"s", Priority.medium, "t"⟩ : Brief) ::
        (List.replicate 10 (⟨"x", Priority.low, "u"⟩ : Brief)).dropLast :=
  ⟨C9_briefs_bound.1 [] "s" none "t" (by simp),
   C9_briefs_bound.2.2.1 (List.replicate 10 ⟨"x", Priority.low, "u"⟩) "s" none "t"
     (by simp)⟩
